import Mathlib

/-!
Shallow embedding of the liber EPUB generator (crate `liber`), covering the
content tree model (`src/epub/content.rs`, `src/epub/content_reference.rs`),
the depth calculators (`src/epub/epub_builder.rs`), the OPF/NCX generators
(`src/output/file_content.rs`) and the archive packagers
(`src/output/creator.rs`, `src/output/creator_async.rs`).

Rust `String`/`&str` values are embedded as `List Char` (`Str`), byte slices
as `List Nat` (`Bytes`).  Rust functions returning `Result` become `Except`;
a Rust panic (out-of-bounds index) is embedded as `Option.none`.  External
collaborators (the `zip`/`async_zip` and `quick_xml` crates, filesystem
reads, UTF-8 decoding, and the metadata/resource XML accessors) are modelled
by oracle parameters or by their rendered results, per the spec's scope.
-/

/-- Embedding of Rust strings (`String` / `&str`) as lists of characters. -/
abbrev Str := List Char

/-- Converts a Lean string literal to the `Str` embedding. -/
def str (s : String) : Str := s.toList

/-- Embedding of Rust byte slices (`&[u8]`). -/
abbrev Bytes := List Nat

/-- Embedding of Rust's `usize::to_string` / `format!("{n}")`. -/
def natStr (n : Nat) : Str := (Nat.repr n).toList

/-- Embedding of Rust's `format!("{n:02}")`: zero-pad to width two. -/
def fmt02 (n : Nat) : Str := if n < 10 then '0' :: natStr n else natStr n

/-- Embedding of Rust's `str::rsplit_once(c)`: split at the last occurrence
of `c`, returning the parts before and after it (separator removed). -/
def rsplit_once (c : Char) : Str → Option (Str × Str)
  | [] => none
  | x :: xs =>
      match rsplit_once c xs with
      | some (pre, post) => some (x :: pre, post)
      | none => if x = c then some ([], xs) else none

/-- Embedding of Rust's `str::parse::<usize>()`: an optional leading `'+'`
followed by at least one ASCII digit; anything else fails. -/
def parse_usize (s : Str) : Option Nat :=
  let digits := match s with
    | '+' :: rest => rest
    | _ => s
  if digits ≠ [] ∧ digits.all (·.isDigit) then
    some (digits.foldl (fun acc c => acc * 10 + (c.toNat - '0'.toNat)) 0)
  else
    none

/-- Embedding of `liber::Error` (`src/lib.rs`).  Payloads of errors wrapped
from external crates are dropped; the crate's own error payloads are kept. -/
inductive Error where
  | Io
  | Zip
  | AsyncZip
  | TokioJoinError
  | Utf8
  | StringUtf8
  | Xml
  | FilenameNotFound (s : Str)
  | ContentFilename (s : Str)
  | XmlParser (pos : Nat)
deriving DecidableEq, Repr

/-- Embedding of `ReferenceType` (`src/epub/content.rs`): a semantic role
tag carrying the display title. -/
inductive ReferenceType where
  | Acknowledgements (s : Str)
  | Bibliography (s : Str)
  | Colophon (s : Str)
  | Copyright (s : Str)
  | Cover (s : Str)
  | Dedication (s : Str)
  | Epigraph (s : Str)
  | Foreword (s : Str)
  | Glossary (s : Str)
  | Index (s : Str)
  | Loi (s : Str)
  | Lot (s : Str)
  | Notes (s : Str)
  | Preface (s : Str)
  | Text (s : Str)
  | TitlePage (s : Str)
  | Toc (s : Str)
deriving DecidableEq, Repr

/-- Embedding of `ReferenceType::type_and_title`. -/
def ReferenceType.type_and_title : ReferenceType → Str × Str
  | .Acknowledgements s => (str "acknowledgements", s)
  | .Bibliography s => (str "bibliography", s)
  | .Colophon s => (str "colophon", s)
  | .Copyright s => (str "copyright-page", s)
  | .Cover s => (str "cover", s)
  | .Dedication s => (str "dedication", s)
  | .Epigraph s => (str "epigraph", s)
  | .Foreword s => (str "foreword", s)
  | .Glossary s => (str "glossary", s)
  | .Index s => (str "index", s)
  | .Loi s => (str "loi", s)
  | .Lot s => (str "lot", s)
  | .Notes s => (str "notes", s)
  | .Preface s => (str "preface", s)
  | .Text s => (str "text", s)
  | .TitlePage s => (str "title-page", s)
  | .Toc s => (str "toc", s)

/-- Embedding of `ContentReference` (`src/epub/content_reference.rs`):
title, optional nested children, optional explicit anchor id. -/
inductive ContentReference where
  | mk (title : Str) (subcontent_references : Option (List ContentReference))
      (id : Option Str)

/-- Field accessor for `ContentReference.title`. -/
def ContentReference.title : ContentReference → Str
  | .mk t _ _ => t

/-- Field accessor for `ContentReference.subcontent_references`. -/
def ContentReference.subcontent_references :
    ContentReference → Option (List ContentReference)
  | .mk _ s _ => s

/-- Field accessor for the private `id` field of `ContentReference`. -/
def ContentReference.id_opt : ContentReference → Option Str
  | .mk _ _ i => i

/-- Embedding of `ContentReference::new`. -/
def ContentReference.new (title : Str) : ContentReference :=
  .mk title none none

/-- Embedding of the fluent setter `ContentReference::id`. -/
def ContentReference.id (r : ContentReference) (name : Str) : ContentReference :=
  .mk r.title r.subcontent_references (some name)

/-- Embedding of `ContentReference::add_child`. -/
def ContentReference.add_child (r : ContentReference)
    (child : ContentReference) : ContentReference :=
  match r.subcontent_references with
  | some subs => .mk r.title (some (subs ++ [child])) r.id_opt
  | none => .mk r.title (some [child]) r.id_opt

/-- Embedding of `ContentReference::add_children`. -/
def ContentReference.add_children (r : ContentReference)
    (children : List ContentReference) : ContentReference :=
  match r.subcontent_references with
  | some subs => .mk r.title (some (subs ++ children)) r.id_opt
  | none => .mk r.title (some children) r.id_opt

/-- Embedding of `ContentReference::level`.  The Rust body indexes
`subcontent_references[0]`; indexing an empty vector panics, embedded here
as `none`. -/
def ContentReference.level : ContentReference → Option Nat
  | .mk _ none _ => some 0
  | .mk _ (some []) _ => none
  | .mk _ (some (r :: _)) _ => (ContentReference.level r).map (1 + ·)

/-- Embedding of `ContentReference::reference_name`: `"{xhtml}#{id}"` for an
explicit id, otherwise `"{xhtml}#id{number:02}"`. -/
def ContentReference.reference_name (r : ContentReference) (xhtml : Str)
    (number : Nat) : Str :=
  match r.id_opt with
  | some i => xhtml ++ '#' :: i
  | none => xhtml ++ ('#' :: str "id") ++ fmt02 number

/-- Embedding of `Content` (`src/epub/content.rs`): raw body bytes, the
semantic role/title, optional children, optional in-page references,
optional explicit filename override. -/
inductive Content where
  | mk (body : Bytes) (reference_type : ReferenceType)
      (subcontents : Option (List Content))
      (content_references : Option (List ContentReference))
      (filename : Option Str)

/-- Field accessor for `Content.body`. -/
def Content.body : Content → Bytes
  | .mk b _ _ _ _ => b

/-- Field accessor for `Content.reference_type`. -/
def Content.reference_type : Content → ReferenceType
  | .mk _ rt _ _ _ => rt

/-- Field accessor for `Content.subcontents`. -/
def Content.subcontents : Content → Option (List Content)
  | .mk _ _ s _ _ => s

/-- Field accessor for `Content.content_references`. -/
def Content.content_references : Content → Option (List ContentReference)
  | .mk _ _ _ r _ => r

/-- Field accessor for the private `filename` field of `Content`. -/
def Content.filename_opt : Content → Option Str
  | .mk _ _ _ _ f => f

/-- Embedding of `Content::new`. -/
def Content.new (body : Bytes) (reference_type : ReferenceType) : Content :=
  .mk body reference_type none none none

/-- Embedding of `Content::filename(number)`: the explicit override if set,
otherwise the sequential name `c{number:02}.xhtml`. -/
def Content.filename (c : Content) (number : Nat) : Str :=
  match c.filename_opt with
  | some f => f
  | none => 'c' :: fmt02 number ++ str ".xhtml"

/-- Embedding of `Content::title`. -/
def Content.title (c : Content) : Str :=
  c.reference_type.type_and_title.2

/-- Embedding of `Content::level`.  The Rust body indexes `subcontents[0]`;
indexing an empty vector panics, embedded here as `none`. -/
def Content.level : Content → Option Nat
  | .mk _ _ none _ _ => some 0
  | .mk _ _ (some []) _ _ => none
  | .mk _ _ (some (c :: _)) _ _ => (Content.level c).map (1 + ·)

/-- Embedding of `Content::level_reference_content`: max of the first
content-reference chain depth and the first child chain combined depth, with
the same panic-on-empty-vector behaviour embedded as `none`. -/
def Content.level_reference_content : Content → Option Nat
  | .mk _ _ subs refs _ =>
      let content_references_level : Option Nat :=
        match refs with
        | none => some 0
        | some [] => none
        | some (r :: _) => r.level.map (1 + ·)
      let subcontents_cont_ref_level : Option Nat :=
        match subs with
        | none => some 0
        | some [] => none
        | some (c :: _) => (Content.level_reference_content c).map (1 + ·)
      do pure (max (← content_references_level) (← subcontents_cont_ref_level))

/-- The exact XML declaration prefix tested by `Content::xhtml`. -/
def xml_decl : Str := str "<?xml version=\"1.0\" encoding=\"utf-8\"?>"

/-- Embedding of `Content::xhtml`: wrap the body in the fixed XHTML 1.1
boilerplate unless it already starts with the exact XML declaration. -/
def Content.xhtml (c : Content) (text : Str) (add_stylesheet : Bool) : Str :=
  if ¬ (xml_decl.isPrefixOf text) then
    let stylesheet :=
      if add_stylesheet then
        str "<link href=\"style.css\" rel=\"stylesheet\" type=\"text/css\"/>"
      else
        str ""
    str "<?xml version=\"1.0\" encoding=\"utf-8\"?><!DOCTYPE html PUBLIC \"-//W3C//DTD XHTML 1.1//EN\" \"http://www.w3.org/TR/xhtml11/DTD/xhtml11.dtd\">\n            <html xmlns=\"http://www.w3.org/1999/xhtml\"><head><title>"
      ++ c.title ++ str "</title>" ++ stylesheet ++ str "</head>" ++ text
      ++ str "</html>"
  else
    text

/-- Embedding of the `ContentBuilder` wrapper (`src/epub/content.rs`). -/
structure ContentBuilder where
  c : Content

/-- Embedding of `ContentBuilder::new`. -/
def ContentBuilder.new (body : Bytes) (reference_type : ReferenceType) :
    ContentBuilder :=
  ⟨Content.new body reference_type⟩

/-- Embedding of `ContentBuilder::add_child`. -/
def ContentBuilder.add_child (b : ContentBuilder) (content : Content) :
    ContentBuilder :=
  match b.c.subcontents with
  | some subs =>
      ⟨.mk b.c.body b.c.reference_type (some (subs ++ [content]))
        b.c.content_references b.c.filename_opt⟩
  | none =>
      ⟨.mk b.c.body b.c.reference_type (some [content])
        b.c.content_references b.c.filename_opt⟩

/-- Embedding of `ContentBuilder::add_children`. -/
def ContentBuilder.add_children (b : ContentBuilder) (contents : List Content) :
    ContentBuilder :=
  match b.c.subcontents with
  | some subs =>
      ⟨.mk b.c.body b.c.reference_type (some (subs ++ contents))
        b.c.content_references b.c.filename_opt⟩
  | none =>
      ⟨.mk b.c.body b.c.reference_type (some contents)
        b.c.content_references b.c.filename_opt⟩

/-- Embedding of `ContentBuilder::add_content_reference`. -/
def ContentBuilder.add_content_reference (b : ContentBuilder)
    (r : ContentReference) : ContentBuilder :=
  match b.c.content_references with
  | some refs =>
      ⟨.mk b.c.body b.c.reference_type b.c.subcontents (some (refs ++ [r]))
        b.c.filename_opt⟩
  | none =>
      ⟨.mk b.c.body b.c.reference_type b.c.subcontents (some [r])
        b.c.filename_opt⟩

/-- Embedding of `ContentBuilder::add_content_references`. -/
def ContentBuilder.add_content_references (b : ContentBuilder)
    (refs : List ContentReference) : ContentBuilder :=
  match b.c.content_references with
  | some old =>
      ⟨.mk b.c.body b.c.reference_type b.c.subcontents (some (old ++ refs))
        b.c.filename_opt⟩
  | none =>
      ⟨.mk b.c.body b.c.reference_type b.c.subcontents (some refs)
        b.c.filename_opt⟩

/-- Embedding of the fluent setter `ContentBuilder::filename`. -/
def ContentBuilder.filename (b : ContentBuilder) (name : Str) : ContentBuilder :=
  ⟨.mk b.c.body b.c.reference_type b.c.subcontents b.c.content_references
    (some name)⟩

/-- Embedding of `ContentBuilder::build`. -/
def ContentBuilder.build (b : ContentBuilder) : Content := b.c

/-- Embedding of `Metadata` (`src/epub/metadata.rs`).  Metadata is an
out-of-scope external collaborator (spec section 1); only its read accessors
are consumed by the generators, so it is modelled by the rendered results of
those accessors. -/
structure Metadata where
  title : Str
  title_metadata_xml : Str
  language_metadata_xml : Str
  identifier_metadata_xml : Str
  identifier_toc_xml : Str
  creator_metadata_xml : Option Str
  contributor_metadata_xml : Option Str
  publisher_metadata_xml : Option Str
  date_metadata_xml : Option Str
  subject_metadata_xml : Option Str
  description_metadata_xml : Option Str

/-- Embedding of `Resource` (`src/epub/resource.rs`).  Resource path reading
is out-of-scope external I/O (spec section 1); a resource is modelled by the
outcomes of its interface: `filename()`, `as_manifest_xml()` and
`file_content()` (filepath and the read bytes, the latter kept opaque). -/
structure Resource where
  filename_result : Except Error Str
  manifest_xml : Option Str
  file_content_result : Except Error (Str × Str)

/-- Embedding of `Epub` (`src/epub/epub_builder.rs`). -/
structure Epub where
  metadata : Metadata
  stylesheet : Option Str
  cover_image : Option Resource
  resources : Option (List Resource)
  contents : Option (List Content)

/-- Embedding of `Epub::level`: maximum over root contents of
`Content::level + 1` and `Content::level_reference_content + 1`, each
`unwrap_or(1)` on an empty list; 0 when there are no contents.  A panic in
either depth calculator propagates as `none`. -/
def Epub.level (e : Epub) : Option Nat :=
  match e.contents with
  | some contents => do
      let ls ← contents.mapM (fun c => (Content.level c).map (· + 1))
      let rs ← contents.mapM (fun c => c.level_reference_content.map (· + 1))
      pure (Nat.max ((ls.max?).getD 1) ((rs.max?).getD 1))
  | none => some 0

/-- Embedding of `Epub::level_as_toc_xml`. -/
def Epub.level_as_toc_xml (e : Epub) : Option Str :=
  e.level.map (fun l =>
    str "<meta name=\"dtb:depth\" content=\"" ++ natStr l ++ str "\"/>")

/-- Embedding of `Epub::cover_image_as_metadata_xml`. -/
def Epub.cover_image_as_metadata_xml (e : Epub) : Option Str :=
  match e.cover_image with
  | none => none
  | some r =>
      match r.filename_result with
      | .ok f => some (str "<meta name=\"cover\" content=\"" ++ f ++ str "\"/>")
      | .error _ => none

/-- Embedding of `Epub::cover_image_as_manifest_xml`. -/
def Epub.cover_image_as_manifest_xml (e : Epub) : Option Str :=
  match e.cover_image with
  | none => none
  | some r => r.manifest_xml

mutual

/-- Embedding of `create_content_chain` (`src/output/file_content.rs`):
pre-order walk over the content forest, incrementing the file counter per
node, validating each filename to end in `.xhtml`, and appending `f
filename reference_type` to the accumulated builder string. -/
def create_content_chain (file_number : Nat) (cb : Str)
    (contents : Option (List Content)) (f : Str → ReferenceType → Str) :
    Except Error (Str × Nat) :=
  match contents with
  | none => .ok (cb, file_number)
  | some l => create_content_chain_list file_number cb l f

/-- The `for con in contents` loop inside `create_content_chain`. -/
def create_content_chain_list (file_number : Nat) (cb : Str) :
    List Content → (Str → ReferenceType → Str) → Except Error (Str × Nat)
  | [], _ => .ok (cb, file_number)
  | .mk body rt subs refs fname :: rest, f =>
      let con := Content.mk body rt subs refs fname
      let n1 := file_number + 1
      let filename := con.filename n1
      if ¬ (str ".xhtml").isSuffixOf filename then
        .error (.ContentFilename filename)
      else
        match create_content_chain n1 (cb ++ f filename con.reference_type) subs f with
        | .error e => .error e
        | .ok (cb2, n2) => create_content_chain_list n2 cb2 rest f

end

/-- One emitted `navPoint` of the NCX navMap, recorded in emission
(pre-order / play-order) sequence: its `id` attribute, `playOrder`
attribute, `content src` attribute and label text. -/
structure NavEvent where
  id : Str
  play_order : Nat
  src : Str
  label : Str
deriving DecidableEq, Repr

mutual

/-- Embedding of `content_references_to_nav_point`
(`src/output/file_content.rs`): parses the parent path from `toc_index` via
`rsplit_once('-')` (defaulting to an empty prefix and 0), then runs the
reference loop.  Returns the generated XML, the flat list of emitted
navPoints in emission order, and the final play-order and link-number
counters.  The Rust function returns `Option<String>` but is always `Some`;
the string component embeds it. -/
def content_references_to_nav_point (current_xhtml : Nat × Str)
    (play_order : Nat) (toc_index : Str)
    (content_references : List ContentReference) (link_number : Nat) :
    Str × List NavEvent × Nat × Nat :=
  let pt :=
    match rsplit_once '-' toc_index with
    | some (pre, number) => (pre, (parse_usize number).getD 0)
    | none => (str "", 0)
  nav_reference_loop current_xhtml pt.1 pt.2 play_order link_number
    content_references

/-- The `for content_reference in content_references` loop inside
`content_references_to_nav_point`: per reference, increments the link
number, the sibling toc number and the play order, recurses into nested
references (sharing play-order and link-number), and emits the navPoint. -/
def nav_reference_loop (current_xhtml : Nat × Str) (pre : Str)
    (toc_number play_order link_number : Nat) :
    List ContentReference → Str × List NavEvent × Nat × Nat
  | [] => (str "", [], play_order, link_number)
  | .mk title subs idf :: rest =>
      let content_reference := ContentReference.mk title subs idf
      let current_link := link_number + 1
      let current_toc_number := toc_number + 1
      let current_toc := pre ++ '-' :: natStr current_toc_number
      let current_play_order := play_order + 1
      let s :=
        match subs with
        | some subrefs =>
            content_references_to_nav_point current_xhtml current_play_order
              (current_toc ++ ['-']) subrefs current_link
        | none => (str "", ([] : List NavEvent), current_play_order, current_link)
      let src := content_reference.reference_name current_xhtml.2 current_link
      let nav_point :=
        str "<navPoint id=\"navPoint-" ++ natStr current_xhtml.1 ++ current_toc
          ++ str "\" playOrder=\"" ++ natStr current_play_order
          ++ str "\">\n            <navLabel><text>" ++ title
          ++ str "</text></navLabel>\n            <content src=\"" ++ src
          ++ str "\"/>" ++ s.1 ++ str "</navPoint>"
      let ev : NavEvent :=
        ⟨str "navPoint-" ++ natStr current_xhtml.1 ++ current_toc,
          current_play_order, src, title⟩
      let w := nav_reference_loop current_xhtml pre current_toc_number
        s.2.2.1 s.2.2.2 rest
      (nav_point ++ w.1, ev :: (s.2.1 ++ w.2.1), w.2.2.1, w.2.2.2)

end

/-- The `content.content_references.as_ref().and_then(|crs|
content_references_to_nav_point(..)).unwrap_or_default()` chain inside
`contents_to_nav_point`: empty output when there is no reference list,
otherwise the reference chain started with toc index `""` and a fresh
link-number 0, dropping the final link-number. -/
def content_refs_part (x : Nat × Str) (po : Nat) :
    Option (List ContentReference) → Str × List NavEvent × Nat
  | some content_references =>
      let s := content_references_to_nav_point x po (str "") content_references 0
      (s.1, s.2.1, s.2.2.1)
  | none => (str "", [], po)

mutual

/-- The `content.subcontents.as_ref().and_then(|s| contents_to_nav_point(..))
.unwrap_or_default()` chain inside `contents_to_nav_point`. -/
def subcontents_part (po : Nat) :
    Option (List Content) → Str × List NavEvent × Nat
  | some subcontents => contents_to_nav_point po subcontents
  | none => (str "", [], po)

/-- Embedding of `contents_to_nav_point` (`src/output/file_content.rs`).
Per content node: ticks the play-order counter, derives the filename from
the *play-order* value, emits the node's navPoint, then its reference chain
(fresh link-number 0), then its subcontents.  Returns the generated XML, the
flat list of emitted navPoints in emission order and the final play-order
counter.  The Rust function returns `Option<String>` but is always `Some`;
the string component embeds it. -/
def contents_to_nav_point (play_order : Nat) :
    List Content → Str × List NavEvent × Nat
  | [] => (str "", [], play_order)
  | .mk body rt subs refs fname :: rest =>
      let content := Content.mk body rt subs refs fname
      let current_play_order := play_order + 1
      let filename := content.filename current_play_order
      let r := content_refs_part (current_play_order, filename)
        current_play_order refs
      let u := subcontents_part r.2.2 subs
      let nav_point :=
        str "<navPoint id=\"navPoint-" ++ natStr current_play_order
          ++ str "\" playOrder=\"" ++ natStr current_play_order
          ++ str "\">\n            <navLabel><text>" ++ content.title
          ++ str "</text></navLabel>\n            <content src=\"" ++ filename
          ++ str "\"/>" ++ r.1 ++ u.1 ++ str "</navPoint>"
      let ev : NavEvent :=
        ⟨str "navPoint-" ++ natStr current_play_order, current_play_order,
          filename, content.title⟩
      let w := contents_to_nav_point u.2.2 rest
      (nav_point ++ w.1, ev :: (r.2.1 ++ u.2.1 ++ w.2.1), w.2.2)

end

/-- The manifest closure passed to `create_content_chain` by `content_opf`. -/
def manifest_item_xml (filename : Str) (_ : ReferenceType) : Str :=
  str "<item id=\"" ++ filename ++ str "\" href=\"" ++ filename
    ++ str "\" media-type=\"application/xhtml+xml\"/>"

/-- The spine closure passed to `create_content_chain` by `content_opf`. -/
def spine_itemref_xml (filename : Str) (_ : ReferenceType) : Str :=
  str "<itemref idref=\"" ++ filename ++ str "\"/>"

/-- The guide closure passed to `create_content_chain` by `content_opf`. -/
def guide_reference_xml (filename : Str) (rt : ReferenceType) : Str :=
  let p := rt.type_and_title
  str "<reference type=\"" ++ p.1 ++ str "\" title=\"" ++ p.2
    ++ str "\" href=\"" ++ filename ++ str "\"/>"

/-- Embedding of `content_opf` (`src/output/file_content.rs`): metadata
block, manifest, spine and guide, the last three each re-running
`create_content_chain` from a fresh zero counter over the same forest. -/
def content_opf (epub : Epub) : Except Error (Str × Str) :=
  let metadata := epub.metadata
  let cb := str "<?xml version=\"1.0\" encoding=\"utf-8\"?><package version=\"2.0\" unique-identifier=\"BookId\" xmlns=\"http://www.idpf.org/2007/opf\">\n        <metadata xmlns:dc=\"http://purl.org/dc/elements/1.1/\" xmlns:opf=\"http://www.idpf.org/2007/opf\">"
  let cb := cb ++ metadata.title_metadata_xml ++ metadata.language_metadata_xml
    ++ metadata.identifier_metadata_xml
  let cb := cb ++ (metadata.creator_metadata_xml).getD (str "")
  let cb := cb ++ (metadata.contributor_metadata_xml).getD (str "")
  let cb := cb ++ (metadata.publisher_metadata_xml).getD (str "")
  let cb := cb ++ (metadata.date_metadata_xml).getD (str "")
  let cb := cb ++ (metadata.subject_metadata_xml).getD (str "")
  let cb := cb ++ (metadata.description_metadata_xml).getD (str "")
  let cb := cb ++ (epub.cover_image_as_metadata_xml).getD (str "")
  let cb := cb ++ str "</metadata><manifest><item id=\"ncx\" href=\"toc.ncx\" media-type=\"application/x-dtbncx+xml\" />"
  let cb := cb ++ (if epub.stylesheet.isSome then
    str "<item id=\"style.css\" href=\"style.css\" media-type=\"text/css\"/>"
    else str "")
  let cb := cb ++ (epub.cover_image_as_manifest_xml).getD (str "")
  let cb := cb ++ (match epub.resources with
    | some resources => (resources.map (fun r => (r.manifest_xml).getD (str ""))).flatten
    | none => str "")
  match create_content_chain 0 cb epub.contents manifest_item_xml with
  | .error e => .error e
  | .ok (cb, _) =>
    let cb := cb ++ str "</manifest><spine toc=\"ncx\">"
    match create_content_chain 0 cb epub.contents spine_itemref_xml with
    | .error e => .error e
    | .ok (cb, _) =>
      let cb := cb ++ str "</spine><guide>"
      match create_content_chain 0 cb epub.contents guide_reference_xml with
      | .error e => .error e
      | .ok (cb, _) =>
        .ok (str "OEBPS/content.opf", cb ++ str "</guide></package>")

/-- Embedding of `toc_ncx` (`src/output/file_content.rs`).  The Rust
function returns `Result` but never errors; a panic from the depth
calculator (`Epub::level`) propagates as `none`. -/
def toc_ncx (epub : Epub) : Option (Str × Str) :=
  let metadata := epub.metadata
  let cb := str "<?xml version=\"1.0\" encoding=\"UTF-8\"?><!DOCTYPE ncx PUBLIC \"-//NISO//DTD ncx 2005-1//EN\" \"http://www.daisy.org/z3986/2005/ncx-2005-1.dtd\">\n        <ncx xmlns=\"http://www.daisy.org/z3986/2005/ncx/\" version=\"2005-1\"><head>"
  let cb := cb ++ metadata.identifier_toc_xml
  match epub.level_as_toc_xml with
  | none => none
  | some lv =>
    let cb := cb ++ lv
    let cb := cb ++ str "<meta name=\"dtb:totalPageCount\" content=\"0\"/><meta name=\"dtb:maxPageNumber\" content=\"0\"/></head>\n                        <docTitle><text>"
      ++ metadata.title ++ str "</text></docTitle><navMap>"
    let cb := cb ++ (match epub.contents with
      | some contents => (contents_to_nav_point 0 contents).1
      | none => str "")
    some (str "OEBPS/toc.ncx", cb ++ str "</navMap></ncx>")

/-- Oracle outcomes for the external collaborators used while emitting
content files and formatting XML: std UTF-8 decoding (`str::from_utf8`) and
`quick_xml` pretty-printing (`xml::format` / `xml::async_format`), both
out of scope per spec section 1. -/
structure Oracles where
  utf8 : Bytes → Except Error Str
  xml_format : Str → Except Error Str

mutual

/-- Embedding of `Content::file_content` (`src/epub/content.rs`): increments
the file counter, derives `OEBPS/<filename>`, decodes the body, wraps and
formats it, then recurses over subcontents, accumulating `(filepath, bytes)`
pairs in pre-order. -/
def Content.file_content (o : Oracles) (add_stylesheet : Bool) :
    Content → Nat → Except Error (List (Str × Str) × Nat)
  | .mk body rt subs refs fname, number =>
      let c := Content.mk body rt subs refs fname
      let n1 := number + 1
      let filepath := str "OEBPS/" ++ c.filename n1
      match o.utf8 body with
      | .error e => .error e
      | .ok text =>
          match o.xml_format (c.xhtml text add_stylesheet) with
          | .error e => .error e
          | .ok xhtml_content =>
              match subs with
              | some subcontents =>
                  match Content.file_content_list o add_stylesheet subcontents n1 with
                  | .error e => .error e
                  | .ok (files, n2) => .ok ((filepath, xhtml_content) :: files, n2)
              | none => .ok ([(filepath, xhtml_content)], n1)

/-- The `for content in subcontents` loop inside `Content::file_content`,
also used by both packagers for the root contents list. -/
def Content.file_content_list (o : Oracles) (add_stylesheet : Bool) :
    List Content → Nat → Except Error (List (Str × Str) × Nat)
  | [], number => .ok ([], number)
  | c :: rest, number =>
      match Content.file_content o add_stylesheet c number with
      | .error e => .error e
      | .ok (files, n1) =>
          match Content.file_content_list o add_stylesheet rest n1 with
          | .error e => .error e
          | .ok (files2, n2) => .ok (files ++ files2, n2)

end

/-- Embedding of `ZipCompression` (`src/output/creator.rs`); `Stored` is the
default. -/
inductive ZipCompression where
  | Deflated
  | Stored
deriving DecidableEq, Repr

/-- The compression method recorded on a ZIP entry (the `zip` /`async_zip`
crates' per-entry method, as configured by the packagers). -/
inductive CompressionMethod where
  | Stored
  | Deflated
deriving DecidableEq, Repr

/-- One entry of the in-memory ZIP archive: path, payload and the
compression method it was written with. -/
structure ZipEntry where
  path : Str
  data : Str
  compression : CompressionMethod
deriving DecidableEq, Repr

/-- Embedding of `file_content::mimetype()`. -/
def mimetype_file : Str × Str :=
  (str "mimetype", str "application/epub+zip")

/-- Embedding of `file_content::container()`. -/
def container_file : Str × Str :=
  (str "META-INF/container.xml",
    str "<?xml version=\"1.0\" encoding=\"UTF-8\"?>\n<container version=\"1.0\" xmlns=\"urn:oasis:names:tc:opendocument:xmlns:container\">\n    <rootfiles>\n        <rootfile full-path=\"OEBPS/content.opf\" media-type=\"application/oebps-package+xml\"/>\n   </rootfiles>\n</container>\n        ")

/-- Embedding of `file_content::display_options()`. -/
def display_options_file : Str × Str :=
  (str "META-INF/com.apple.ibooks.display-options.xml",
    str "<?xml version=\"1.0\" encoding=\"utf-8\"?>\n<display_options>\n\t<platform name=\"*\">\n\t\t<option name=\"specified-fonts\">true</option>\n\t</platform>\n</display_options>\n        ")

/-- Embedding of `collect::<crate::Result<Vec<_>>>()` over resource reads
(sync packager) and of the value behaviour of `future::try_join_all`
(async packager): all results are gathered, and the first error in list
order is returned if any read failed. -/
def collect_results {α : Type} : List (Except Error α) → Except Error (List α)
  | [] => .ok []
  | .error e :: _ => .error e
  | .ok a :: rest => (collect_results rest).map (a :: ·)

/-- The compression-method translation performed by both packagers'
constructors: the caller's `ZipCompression` choice mapped onto the ZIP
writer's per-entry method, used for *every* entry they write. -/
def zip_method : ZipCompression → CompressionMethod
  | .Stored => CompressionMethod.Stored
  | .Deflated => CompressionMethod.Deflated

/-- Embedding of the sync packager `EpubFile::create`
(`src/output/creator.rs`).  Every `add_file` appends one entry, carrying the
single caller-chosen compression method, to the in-memory ZIP buffer; the
buffer is flushed to the output sink only as the final step.  Result: `none`
for a panic, otherwise the step outcome together with the final ZIP buffer
and the entries flushed to the sink. -/
def EpubFile.create (epub : Epub) (compression : ZipCompression) (o : Oracles) :
    Option (Except Error Unit × List ZipEntry × List ZipEntry) :=
  let comp := zip_method compression
  let buf : List ZipEntry :=
    [⟨mimetype_file.1, mimetype_file.2, comp⟩,
     ⟨container_file.1, container_file.2, comp⟩,
     ⟨display_options_file.1, display_options_file.2, comp⟩]
  let buf := match epub.stylesheet with
    | some stylesheet => buf ++ [⟨str "OEBPS/style.css", stylesheet, comp⟩]
    | none => buf
  match ((match epub.cover_image with
         | some cover => cover.file_content_result.map (fun fc => [fc])
         | none => .ok []) : Except Error (List (Str × Str))) with
  | .error e => some (.error e, buf, [])
  | .ok cover_files =>
  let buf := buf ++ cover_files.map (fun fc => (⟨fc.1, fc.2, comp⟩ : ZipEntry))
  match ((match epub.resources with
         | some resources => collect_results (resources.map (·.file_content_result))
         | none => .ok []) : Except Error (List (Str × Str))) with
  | .error e => some (.error e, buf, [])
  | .ok resource_files =>
  let buf := buf ++ resource_files.map (fun fc => (⟨fc.1, fc.2, comp⟩ : ZipEntry))
  match ((match epub.contents with
         | some contents =>
             Content.file_content_list o epub.stylesheet.isSome contents 0
         | none => .ok ([], 0)) : Except Error (List (Str × Str) × Nat)) with
  | .error e => some (.error e, buf, [])
  | .ok content_files =>
  let buf := buf ++ content_files.1.map (fun fc => (⟨fc.1, fc.2, comp⟩ : ZipEntry))
  match content_opf epub with
  | .error e => some (.error e, buf, [])
  | .ok opf =>
  match o.xml_format opf.2 with
  | .error e => some (.error e, buf, [])
  | .ok opf_formatted =>
  let buf := buf ++ [⟨opf.1, opf_formatted, comp⟩]
  match toc_ncx epub with
  | none => none
  | some ncx =>
  match o.xml_format ncx.2 with
  | .error e => some (.error e, buf, [])
  | .ok ncx_formatted =>
  let buf := buf ++ [⟨ncx.1, ncx_formatted, comp⟩]
  some (.ok (), buf, buf)

/-- Embedding of the async packager `EpubFile::create`
(`src/output/creator_async.rs`).  Same fixed file order as the sync
packager; resource reads are issued jointly and collected via
`try_join_all`, and OPF/NCX formatting goes through `xml::async_format`
(the same formatting oracle).  Every entry again carries the single
caller-chosen compression method. -/
def EpubFileAsync.create (epub : Epub) (compression : ZipCompression)
    (o : Oracles) :
    Option (Except Error Unit × List ZipEntry × List ZipEntry) :=
  let comp := zip_method compression
  let buf : List ZipEntry :=
    [⟨mimetype_file.1, mimetype_file.2, comp⟩,
     ⟨container_file.1, container_file.2, comp⟩,
     ⟨display_options_file.1, display_options_file.2, comp⟩]
  let buf := match epub.stylesheet with
    | some stylesheet => buf ++ [⟨str "OEBPS/style.css", stylesheet, comp⟩]
    | none => buf
  match ((match epub.cover_image with
         | some cover => cover.file_content_result.map (fun fc => [fc])
         | none => .ok []) : Except Error (List (Str × Str))) with
  | .error e => some (.error e, buf, [])
  | .ok cover_files =>
  let buf := buf ++ cover_files.map (fun fc => (⟨fc.1, fc.2, comp⟩ : ZipEntry))
  match ((match epub.resources with
         | some resources => collect_results (resources.map (·.file_content_result))
         | none => .ok []) : Except Error (List (Str × Str))) with
  | .error e => some (.error e, buf, [])
  | .ok resource_files =>
  let buf := buf ++ resource_files.map (fun fc => (⟨fc.1, fc.2, comp⟩ : ZipEntry))
  match ((match epub.contents with
         | some contents =>
             Content.file_content_list o epub.stylesheet.isSome contents 0
         | none => .ok ([], 0)) : Except Error (List (Str × Str) × Nat)) with
  | .error e => some (.error e, buf, [])
  | .ok content_files =>
  let buf := buf ++ content_files.1.map (fun fc => (⟨fc.1, fc.2, comp⟩ : ZipEntry))
  match content_opf epub with
  | .error e => some (.error e, buf, [])
  | .ok opf =>
  match o.xml_format opf.2 with
  | .error e => some (.error e, buf, [])
  | .ok opf_formatted =>
  let buf := buf ++ [⟨opf.1, opf_formatted, comp⟩]
  match toc_ncx epub with
  | none => none
  | some ncx =>
  match o.xml_format ncx.2 with
  | .error e => some (.error e, buf, [])
  | .ok ncx_formatted =>
  let buf := buf ++ [⟨ncx.1, ncx_formatted, comp⟩]
  some (.ok (), buf, buf)


mutual

/-- Specification-side abstraction of the numbering walk of
`create_content_chain`: the pre-order list of `(filename, reference_type)`
assignments over an optional forest, with the same counter discipline and
the same `.xhtml` validation. -/
def opf_walk (file_number : Nat) (contents : Option (List Content)) :
    Except Error (List (Str × ReferenceType) × Nat) :=
  match contents with
  | none => .ok ([], file_number)
  | some l => opf_walk_list file_number l

/-- List form of `opf_walk`. -/
def opf_walk_list (file_number : Nat) :
    List Content → Except Error (List (Str × ReferenceType) × Nat)
  | [] => .ok ([], file_number)
  | .mk body rt subs refs fname :: rest =>
      let con := Content.mk body rt subs refs fname
      let n1 := file_number + 1
      let filename := con.filename n1
      if ¬ (str ".xhtml").isSuffixOf filename then
        .error (.ContentFilename filename)
      else
        match opf_walk n1 subs with
        | .error e => .error e
        | .ok (ps, n2) =>
            match opf_walk_list n2 rest with
            | .error e => .error e
            | .ok (qs, n3) => .ok ((filename, con.reference_type) :: (ps ++ qs), n3)

end

/-- Renders one XML element per assigned filename, in walk order. -/
def render_chain (f : Str → ReferenceType → Str)
    (ps : List (Str × ReferenceType)) : Str :=
  (ps.map (fun q => f q.1 q.2)).flatten

mutual

/-- Number of Content nodes in an optional forest, at every depth. -/
def contents_size_opt : Option (List Content) → Nat
  | none => 0
  | some l => contents_size l

/-- Number of Content nodes in a forest, at every depth. -/
def contents_size : List Content → Nat
  | [] => 0
  | .mk _ _ subs _ _ :: rest => 1 + contents_size_opt subs + contents_size rest

end

mutual

/-- True when some node of the optional forest, at any depth, carries an
explicit filename override that does not end in `.xhtml`. -/
def has_bad_filename_opt : Option (List Content) → Bool
  | none => false
  | some l => has_bad_filename_list l

/-- List form of `has_bad_filename_opt`. -/
def has_bad_filename_list : List Content → Bool
  | [] => false
  | .mk _ _ subs _ fname :: rest =>
      (match fname with
       | some f => !((str ".xhtml").isSuffixOf f)
       | none => false)
      || has_bad_filename_opt subs || has_bad_filename_list rest

end

/-- A minimal metadata record (all rendered accessor outputs empty). -/
def metadata0 : Metadata :=
  ⟨str "T", str "", str "", str "", str "", none, none, none, none, none, none⟩

/-- Oracles in which UTF-8 decoding and XML formatting always succeed. -/
def o0 : Oracles := ⟨fun _ => .ok (str ""), fun s => .ok s⟩

/-- A resource whose read fails with an I/O error. -/
def failing_cover : Resource := ⟨.error .Io, none, .error .Io⟩

/-- A document whose cover-image read fails. -/
def epub_err : Epub := ⟨metadata0, none, some failing_cover, none, none⟩

/-- Two root contents, the first carrying one in-page reference: the input
on which the OPF file numbering and the NCX play-order-derived filenames
diverge. -/
def ref_forest : List Content :=
  [Content.mk [] (.Text (str "A")) none (some [ContentReference.new (str "R")]) none,
   Content.new [] (.Text (str "B"))]

/-- A three-level chain root → child → grandchild. -/
def deep_forest : List Content :=
  [Content.mk [] (.Text (str "A"))
    (some [Content.mk [] (.Text (str "B"))
      (some [Content.new [] (.Text (str "C"))]) none none]) none none]

/-- A root whose only child carries an invalid explicit filename override. -/
def bad_override_forest : List Content :=
  [Content.mk [] (.Text (str "A"))
    (some [Content.mk [] (.Text (str "X")) none none (some (str "bad.txt"))])
    none none]

/-- A document containing the invalid override, nested one level deep. -/
def epub_bad_override : Epub :=
  ⟨metadata0, none, none, none, some bad_override_forest⟩

/-- A body that begins with an XML declaration, but not with the exact
string the serializer tests for. -/
def c9_body : Str := str "<?xml version=\"1.0\"?><body/>"

/-- A minimal content node. -/
def c9_content : Content := Content.new [] (.Text (str "T"))

/-- A content node built by calling `add_children` with an empty vector on a
node whose child list was not yet set. -/
def empty_children_content : Content :=
  ((ContentBuilder.new [] (.Text (str "T"))).add_children []).build

/-- A document whose only content node has `subcontents = Some(vec![])`. -/
def epub_panic : Epub :=
  ⟨metadata0, none, none, none, some [empty_children_content]⟩

/-- A root with two children where only the second child has a deeper
subtree: first-child-only depth reports 1. -/
def lopsided_root : Content :=
  Content.mk [] (.Text (str "R"))
    (some [Content.new [] (.Text (str "L")),
      Content.mk [] (.Text (str "D"))
        (some [Content.new [] (.Text (str "G"))]) none none])
    none none

/-- A three-level nested reference chain (parent → child → grandchild)
followed by a top-level sibling reference with an explicit id. -/
def nested_refs : List ContentReference :=
  [(ContentReference.new (str "Level 1 Ref 1")).add_child
    ((ContentReference.new (str "Level 2 Ref 1")).add_child
      (ContentReference.new (str "Level 3 Ref 1"))),
   (ContentReference.new (str "Level 1 Ref 2")).id (str "four")]
/-- Gluing lemma for consecutive `List.range'` runs produced by one emitted
navPoint followed by its nested block and the remaining siblings. -/
theorem cons_range'_append (a n m k : Nat) (h : k = a + 1 + n) :
    a :: (List.range' (a + 1) n ++ List.range' k m) = List.range' a (n + m + 1) := by
  subst h
  rw [List.range'_append_1, ← List.range'_succ]
  congr 1
  omega

/-- The events of `nav_reference_loop` have consecutive play orders starting
one past the incoming counter, and the final play-order and link-number
counters each advance by exactly the number of emitted navPoints. -/
theorem nav_reference_loop_play (x : Nat × Str) :
    ∀ (pre : Str) (tn po ln : Nat) (refs : List ContentReference),
      ((nav_reference_loop x pre tn po ln refs).2.1.map (·.play_order) =
        List.range' (po + 1) (nav_reference_loop x pre tn po ln refs).2.1.length)
      ∧ (nav_reference_loop x pre tn po ln refs).2.2.1 =
          po + (nav_reference_loop x pre tn po ln refs).2.1.length
      ∧ (nav_reference_loop x pre tn po ln refs).2.2.2 =
          ln + (nav_reference_loop x pre tn po ln refs).2.1.length := by
  refine nav_reference_loop.induct x
    (fun po toc refs ln =>
      ((content_references_to_nav_point x po toc refs ln).2.1.map (·.play_order) =
        List.range' (po + 1)
          (content_references_to_nav_point x po toc refs ln).2.1.length)
      ∧ (content_references_to_nav_point x po toc refs ln).2.2.1 =
          po + (content_references_to_nav_point x po toc refs ln).2.1.length
      ∧ (content_references_to_nav_point x po toc refs ln).2.2.2 =
          ln + (content_references_to_nav_point x po toc refs ln).2.1.length)
    _ ?_ ?_ ?_
  · intro po toc refs ln h
    simpa [content_references_to_nav_point] using h
  · intro pre tn po ln
    simp [nav_reference_loop]
  · intro pre tn po ln title subs idf rest
    dsimp only
    intro ih1 ih2 ih3
    cases subs with
    | none =>
        simp only [nav_reference_loop] at ih3 ⊢
        simp only [List.map_cons, List.map_append, List.length_cons,
          List.length_append, List.nil_append, List.map_nil, List.length_nil,
          Nat.zero_add] at ih3 ⊢
        obtain ⟨e3, p3, l3⟩ := ih3
        refine ⟨?_, by omega, by omega⟩
        rw [e3, List.range'_succ]
    | some subrefs =>
        simp only [nav_reference_loop] at ih3 ⊢
        obtain ⟨e1, p1, l1⟩ := ih1
        obtain ⟨e3, p3, l3⟩ := ih3
        rw [p1, l1] at e3 p3 l3 ⊢
        simp only [List.map_cons, List.map_append, List.length_cons,
          List.length_append]
        refine ⟨?_, by omega, by omega⟩
        rw [e1, e3]
        exact cons_range'_append _ _ _ _ (by omega)
/-- Gluing lemma for two adjacent `List.range'` runs whose second start is
propagated through a counter equation. -/
theorem range'_append_eq (s n k m : Nat) (h : k = s + n) :
    List.range' s n ++ List.range' k m = List.range' s (n + m) := by
  subst h
  rw [List.range'_append_1]
  congr 1
  omega

/-- `content_references_to_nav_point` inherits the consecutive play-order
property from its loop. -/
theorem content_references_to_nav_point_play (x : Nat × Str) (po : Nat)
    (toc : Str) (refs : List ContentReference) (ln : Nat) :
    ((content_references_to_nav_point x po toc refs ln).2.1.map (·.play_order) =
      List.range' (po + 1)
        (content_references_to_nav_point x po toc refs ln).2.1.length)
    ∧ (content_references_to_nav_point x po toc refs ln).2.2.1 =
        po + (content_references_to_nav_point x po toc refs ln).2.1.length
    ∧ (content_references_to_nav_point x po toc refs ln).2.2.2 =
        ln + (content_references_to_nav_point x po toc refs ln).2.1.length := by
  simp only [content_references_to_nav_point]
  exact nav_reference_loop_play x _ _ po ln refs

/-- Gluing lemma for the three consecutive `List.range'` runs emitted under
one content navPoint (its references, its subcontents, its siblings). -/
theorem cons_range'_glue3 (a B C E : Nat) :
    a :: (List.range' (a + 1) B ++ List.range' (a + B + 1) C
        ++ List.range' (a + B + C + 1) E)
      = List.range' a (B + C + E + 1) := by
  have h1 : a + B + 1 = a + 1 + B := by omega
  have h2 : a + B + C + 1 = a + 1 + B + C := by omega
  rw [h1, h2, List.append_assoc, List.range'_append_1, List.range'_append_1,
    List.range'_succ]
  simp only [List.cons.injEq, List.range'_inj]
  exact ⟨trivial, by omega, Or.inr trivial⟩

/-- The reference block of one content node's navPoint also emits
consecutive play orders and advances the counter by its event count. -/
theorem content_refs_part_play (x : Nat × Str) (po : Nat)
    (refs : Option (List ContentReference)) :
    ((content_refs_part x po refs).2.1.map (·.play_order) =
      List.range' (po + 1) (content_refs_part x po refs).2.1.length)
    ∧ (content_refs_part x po refs).2.2 =
        po + (content_refs_part x po refs).2.1.length := by
  cases refs with
  | none => simp [content_refs_part]
  | some crs =>
      obtain ⟨e, p, -⟩ := content_references_to_nav_point_play x po (str "") crs 0
      simp only [content_refs_part]
      exact ⟨e, p⟩

/-- C6 helper: over any content list and any starting counter, the navMap
emission produces play orders `po+1, …, po+N` in emission order and advances
the shared counter by exactly `N`; the subcontents block satisfies the same
property. -/
theorem contents_to_nav_point_play :
    ∀ (po : Nat) (cs : List Content),
      ((contents_to_nav_point po cs).2.1.map (·.play_order) =
        List.range' (po + 1) (contents_to_nav_point po cs).2.1.length)
      ∧ (contents_to_nav_point po cs).2.2 =
          po + (contents_to_nav_point po cs).2.1.length := by
  refine contents_to_nav_point.induct
    (fun po opt =>
      ((subcontents_part po opt).2.1.map (·.play_order) =
        List.range' (po + 1) (subcontents_part po opt).2.1.length)
      ∧ (subcontents_part po opt).2.2 =
          po + (subcontents_part po opt).2.1.length)
    _ ?_ ?_ ?_ ?_
  · intro po subs h
    simpa [subcontents_part] using h
  · intro po
    simp [subcontents_part]
  · intro po
    simp [contents_to_nav_point]
  · intro po body rt subs refs fname rest
    dsimp only
    intro ih1 ih2 ih3
    obtain ⟨ec, pc⟩ := content_refs_part_play
      (po + 1, (Content.mk body rt subs refs fname).filename (po + 1)) (po + 1) refs
    obtain ⟨es, ps⟩ := ih2
    obtain ⟨e3, p3⟩ := ih3
    simp only [contents_to_nav_point]
    rw [pc] at es ps e3 p3 ⊢
    rw [ps] at e3 p3 ⊢
    simp only [List.map_cons, List.map_append, List.length_cons,
      List.length_append] at e3 p3 ⊢
    refine ⟨?_, by omega⟩
    rw [ec, es, e3]
    exact cons_range'_glue3 (po + 1) _ _ _
theorem render_chain_nil (f : Str → ReferenceType → Str) :
    render_chain f [] = [] := rfl

theorem render_chain_cons (f : Str → ReferenceType → Str)
    (q : Str × ReferenceType) (l : List (Str × ReferenceType)) :
    render_chain f (q :: l) = f q.1 q.2 ++ render_chain f l := by
  simp [render_chain]

theorem render_chain_append (f : Str → ReferenceType → Str)
    (l₁ l₂ : List (Str × ReferenceType)) :
    render_chain f (l₁ ++ l₂) = render_chain f l₁ ++ render_chain f l₂ := by
  simp [render_chain]

/-- Refinement: `create_content_chain` renders, via the supplied closure,
exactly the `(filename, reference_type)` pre-order assignment computed by
`opf_walk`, appended to the incoming builder string, with the same final
counter and the same error. -/
theorem create_content_chain_spec :
    ∀ (file_number : Nat) (cb : Str) (contents : Option (List Content))
      (f : Str → ReferenceType → Str),
      create_content_chain file_number cb contents f =
        (opf_walk file_number contents).map
          (fun p => (cb ++ render_chain f p.1, p.2)) := by
  refine create_content_chain.induct
    (fun n cb contents f =>
      create_content_chain n cb contents f =
        (opf_walk n contents).map (fun p => (cb ++ render_chain f p.1, p.2)))
    (fun n cb l f =>
      create_content_chain_list n cb l f =
        (opf_walk_list n l).map (fun p => (cb ++ render_chain f p.1, p.2)))
    ?_ ?_ ?_ ?_ ?_ ?_
  · intro n cb f
    simp [create_content_chain, opf_walk, render_chain, Except.map]
  · intro n cb f l h
    simpa [create_content_chain, opf_walk] using h
  · intro n cb f
    simp [create_content_chain_list, opf_walk_list, render_chain, Except.map]
  · intro n cb body rt subs refs fname rest f
    dsimp only
    intro h
    simp only [create_content_chain_list, opf_walk_list, if_pos h, Except.map]
  · intro n cb body rt subs refs fname rest f
    dsimp only
    intro h e hsube ih
    cases wv : opf_walk (n + 1) subs with
    | error e2 =>
        rw [wv] at ih
        rw [hsube] at ih
        simp only [Except.map] at ih
        simp only [create_content_chain_list, opf_walk_list, if_neg h, hsube,
          wv, Except.map]
        exact ih
    | ok p =>
        rw [wv] at ih
        simp only [Except.map] at ih
        rw [ih] at hsube
        exact absurd hsube (by simp)

  · intro n cb body rt subs refs fname rest f
    dsimp only
    intro h cb2 n2 hsubok ih1 ih2
    cases wv : opf_walk (n + 1) subs with
    | error e2 =>
        rw [wv] at ih1
        rw [hsubok] at ih1
        simp [Except.map] at ih1
    | ok p =>
        rw [wv] at ih1
        rw [hsubok] at ih1
        simp only [Except.map, Except.ok.injEq, Prod.mk.injEq] at ih1
        obtain ⟨hcb2, hn2⟩ := ih1
        subst hcb2
        subst hn2
        simp only [create_content_chain_list, opf_walk_list, if_neg h, hsubok,
          wv, Except.map]
        cases wr : opf_walk_list p.2 rest with
        | error e3 =>
            rw [wr] at ih2
            simp only [Except.map] at ih2
            simp only [wr, Except.map]
            exact ih2
        | ok q =>
            rw [wr] at ih2
            simp only [Except.map] at ih2
            simp only [wr, Except.map, render_chain_cons, render_chain_append]
            simp only [← List.append_assoc] at ih2 ⊢
            exact ih2
/-- A generated sequential filename always ends in `.xhtml`. -/
theorem generated_ends_xhtml (n : Nat) :
    (str ".xhtml").isSuffixOf ('c' :: fmt02 n ++ str ".xhtml") = true := by
  simp only [List.isSuffixOf_iff_suffix]
  exact ⟨'c' :: fmt02 n, rfl⟩

/-- Soundness of the numbering walk: every error it produces is a
`ContentFilename` error, and a successful walk implies no node carries an
invalid override, visits one node per counter tick and assigns one filename
per node. -/
theorem opf_walk_sound :
    ∀ (n : Nat) (contents : Option (List Content)),
      (∀ e, opf_walk n contents = .error e → ∃ s, e = Error.ContentFilename s)
      ∧ (∀ ps n', opf_walk n contents = .ok (ps, n') →
          has_bad_filename_opt contents = false
          ∧ ps.length = contents_size_opt contents
          ∧ n' = n + contents_size_opt contents) := by
  refine opf_walk.induct
    (fun n contents =>
      (∀ e, opf_walk n contents = .error e → ∃ s, e = Error.ContentFilename s)
      ∧ (∀ ps n', opf_walk n contents = .ok (ps, n') →
          has_bad_filename_opt contents = false
          ∧ ps.length = contents_size_opt contents
          ∧ n' = n + contents_size_opt contents))
    (fun n l =>
      (∀ e, opf_walk_list n l = .error e → ∃ s, e = Error.ContentFilename s)
      ∧ (∀ ps n', opf_walk_list n l = .ok (ps, n') →
          has_bad_filename_list l = false
          ∧ ps.length = contents_size l
          ∧ n' = n + contents_size l))
    ?_ ?_ ?_ ?_ ?_ ?_ ?_
  · intro n
    constructor
    · intro e he
      simp [opf_walk] at he
    · intro ps n' hok
      simp only [opf_walk] at hok
      simp only [Except.ok.injEq, Prod.mk.injEq] at hok
      obtain ⟨h1, h2⟩ := hok
      simp [has_bad_filename_opt, contents_size_opt, ← h1, h2]
  · intro n l h
    constructor
    · intro e he
      simp only [opf_walk] at he
      exact h.1 e he
    · intro ps n' hok
      simp only [opf_walk] at hok
      simpa [has_bad_filename_opt, contents_size_opt] using h.2 ps n' hok
  · intro n
    constructor
    · intro e he
      simp [opf_walk_list] at he
    · intro ps n' hok
      simp only [opf_walk_list] at hok
      simp only [Except.ok.injEq, Prod.mk.injEq] at hok
      obtain ⟨h1, h2⟩ := hok
      simp [has_bad_filename_list, contents_size, ← h1, h2]
  · intro n body rt subs refs fname rest
    dsimp only
    intro h
    constructor
    · intro e he
      simp only [opf_walk_list, if_pos h] at he
      simp only [Except.error.injEq] at he
      exact ⟨_, he.symm⟩
    · intro ps n' hok
      simp only [opf_walk_list, if_pos h] at hok
      simp at hok
  · intro n body rt subs refs fname rest
    dsimp only
    intro h e0 hsube ih
    constructor
    · intro e he
      simp only [opf_walk_list, if_neg h, hsube] at he
      simp only [Except.error.injEq] at he
      obtain ⟨s, hs⟩ := ih.1 e0 hsube
      exact ⟨s, by rw [← he, hs]⟩
    · intro ps n' hok
      simp only [opf_walk_list, if_neg h, hsube] at hok
      simp at hok
  · intro n body rt subs refs fname rest
    dsimp only
    intro h qs n3 hsubok e0 hreste ih1 ih2
    constructor
    · intro e he
      simp only [opf_walk_list, if_neg h, hsubok, hreste] at he
      simp only [Except.error.injEq] at he
      obtain ⟨s, hs⟩ := ih2.1 e0 hreste
      exact ⟨s, by rw [← he, hs]⟩
    · intro ps n' hok
      simp only [opf_walk_list, if_neg h, hsubok, hreste] at hok
      simp at hok
  · intro n body rt subs refs fname rest
    dsimp only
    intro h qs n2 hsubok rs n3 hrestok ih1 ih2
    constructor
    · intro e he
      simp only [opf_walk_list, if_neg h, hsubok, hrestok] at he
      simp at he
    · intro ps n' hok
      simp only [opf_walk_list, if_neg h, hsubok, hrestok] at hok
      simp only [Except.ok.injEq, Prod.mk.injEq] at hok
      obtain ⟨hps, hn'⟩ := hok
      obtain ⟨hbad1, hlen1, hn2⟩ := ih1.2 qs n2 hsubok
      obtain ⟨hbad2, hlen2, hn3⟩ := ih2.2 rs n3 hrestok
      have hsuf : (str ".xhtml").isSuffixOf
          ((Content.mk body rt subs refs fname).filename (n + 1)) = true :=
        not_not.mp h
      refine ⟨?_, ?_, ?_⟩
      · cases fname with
        | some f =>
            have hf : (Content.mk body rt subs refs (some f)).filename (n + 1) = f := by
              simp [Content.filename, Content.filename_opt]
            rw [hf] at hsuf
            simp [has_bad_filename_list, hsuf, hbad1, hbad2]
        | none =>
            simp [has_bad_filename_list, hbad1, hbad2]
      · rw [← hps]
        simp [contents_size, hlen1, hlen2]
        omega
      · rw [← hn']
        simp [contents_size]
        omega
/-- C6: in the generated NCX navMap the playOrder values over all emitted
navPoints (Content and ContentReference nodes alike, at every depth) form
the consecutive sequence `play_order+1, …, play_order+N` in emission order
(so `1, …, N` from the fresh counter 0), and the single shared counter
advances by exactly one per emitted navPoint, never repeating or skipping. -/
theorem ncx_play_order_consecutive (play_order : Nat) (cs : List Content) :
    ((contents_to_nav_point play_order cs).2.1.map (·.play_order) =
      List.range' (play_order + 1)
        (contents_to_nav_point play_order cs).2.1.length)
    ∧ (contents_to_nav_point play_order cs).2.2 =
        play_order + (contents_to_nav_point play_order cs).2.1.length :=
  contents_to_nav_point_play play_order cs

/-- C7: for a three-level nested reference chain followed by a sibling
reference under content file 5, the navPoint ids follow the hierarchical
pattern `navPoint-5-1`, `navPoint-5-1-1`, `navPoint-5-1-1-1`,
`navPoint-5-2`, play order increments by exactly one per entry, anchors of
references without explicit ids are the sequential `id01`, `id02`, `id03`
(one shared depth-first link counter starting at 0), and a reference with
an explicit id uses that id verbatim as its anchor. -/
theorem nested_reference_nav_points :
    ((content_references_to_nav_point (5, str "some.xhtml") 10 (str "")
        nested_refs 0).2.1 =
      [⟨str "navPoint-5-1", 11, str "some.xhtml#id01", str "Level 1 Ref 1"⟩,
       ⟨str "navPoint-5-1-1", 12, str "some.xhtml#id02", str "Level 2 Ref 1"⟩,
       ⟨str "navPoint-5-1-1-1", 13, str "some.xhtml#id03", str "Level 3 Ref 1"⟩,
       ⟨str "navPoint-5-2", 14, str "some.xhtml#four", str "Level 1 Ref 2"⟩]
      ∧ (content_references_to_nav_point (5, str "some.xhtml") 10 (str "")
          nested_refs 0).2.2.1 = 14
      ∧ (content_references_to_nav_point (5, str "some.xhtml") 10 (str "")
          nested_refs 0).2.2.2 = 4)
    ∧ (∀ (r : ContentReference) (xhtml : Str) (number : Nat) (i : Str),
        r.id_opt = some i →
          r.reference_name xhtml number = xhtml ++ '#' :: i) := by
  constructor
  · refine ⟨?_, ?_, ?_⟩ <;>
      simp [content_references_to_nav_point, nav_reference_loop, nested_refs,
        ContentReference.new, ContentReference.add_child, ContentReference.id,
        ContentReference.id_opt, ContentReference.title,
        ContentReference.subcontent_references, ContentReference.reference_name,
        rsplit_once, parse_usize, fmt02, natStr] <;> decide
  · intro r xhtml number i h
    simp [ContentReference.reference_name, h]

/-- C7 witness: a reference with an explicit id uses it verbatim. -/
theorem nested_reference_nav_points_witness :
    ((ContentReference.new (str "x")).id (str "four")).reference_name
      (str "f.xhtml") 3 = str "f.xhtml#four" := by
  rw [nested_reference_nav_points.2 ((ContentReference.new (str "x")).id (str "four"))
    (str "f.xhtml") 3 (str "four") rfl]
  decide

/-- C8: subtree depth is 0 for a leaf and otherwise 1 plus the depth of the
*first* child only: the tail of the child list never affects it, and a root
with two children has subtree depth 1 even when the second child's subtree
is deeper. -/
theorem level_first_child_only :
    (∀ (c : Content), c.subcontents = none → c.level = some 0)
    ∧ (∀ (body : Bytes) (rt : ReferenceType) (h : Content) (t t' : List Content)
        (refs : Option (List ContentReference)) (fname : Option Str),
        (Content.mk body rt (some (h :: t)) refs fname).level =
          (Content.mk body rt (some (h :: t')) refs fname).level
        ∧ (Content.mk body rt (some (h :: t)) refs fname).level =
            h.level.map (1 + ·))
    ∧ lopsided_root.level = some 1 := by
  refine ⟨?_, ?_, ?_⟩
  · intro c h
    cases c with
    | mk body rt subs refs fname =>
        simp only [Content.subcontents] at h
        subst h
        simp [Content.level]
  · intro body rt h t t' refs fname
    constructor <;> simp [Content.level]
  · simp [lopsided_root, Content.new, Content.level]

/-- C8 witness: a leaf has subtree depth 0. -/
theorem level_first_child_only_witness :
    (Content.new [] (ReferenceType.Text (str "L"))).level = some 0 :=
  level_first_child_only.1 _ rfl
set_option maxRecDepth 8000 in
/-- C9 counterexample: a body that begins with an XML declaration (here
`<?xml version="1.0"?>`), but not with the exact string the serializer
compares against, is *not* passed through unchanged: it gets wrapped. -/
theorem xhtml_xml_decl_not_passthrough :
    (str "<?xml ").isPrefixOf c9_body = true
    ∧ c9_content.xhtml c9_body false ≠ c9_body := by
  constructor
  · decide
  · decide

set_option maxRecDepth 8000 in
/-- C9 amended: a body that begins with the exact declaration
`<?xml version="1.0" encoding="utf-8"?>` is passed through unchanged (no
wrapping, no stylesheet link), and since the serializer's own output always
begins with that exact declaration, serializing an already-serialized
document leaves it unchanged (the serializer is idempotent). -/
theorem xhtml_exact_decl_passthrough_idempotent :
    (∀ (c : Content) (text : Str) (a : Bool),
        xml_decl.isPrefixOf text = true → c.xhtml text a = text)
    ∧ (∀ (c c' : Content) (text : Str) (a a' : Bool),
        c'.xhtml (c.xhtml text a) a' = c.xhtml text a) := by
  have hpass : ∀ (c : Content) (text : Str) (a : Bool),
      xml_decl.isPrefixOf text = true → c.xhtml text a = text := by
    intro c text a h
    simp [Content.xhtml, h]
  refine ⟨hpass, ?_⟩
  intro c c' text a a'
  by_cases h : xml_decl.isPrefixOf text = true
  · rw [hpass c text a h, hpass c' text a' h]
  · have hsplit :
        str "<?xml version=\"1.0\" encoding=\"utf-8\"?><!DOCTYPE html PUBLIC \"-//W3C//DTD XHTML 1.1//EN\" \"http://www.w3.org/TR/xhtml11/DTD/xhtml11.dtd\">\n            <html xmlns=\"http://www.w3.org/1999/xhtml\"><head><title>"
          = xml_decl
            ++ str "<!DOCTYPE html PUBLIC \"-//W3C//DTD XHTML 1.1//EN\" \"http://www.w3.org/TR/xhtml11/DTD/xhtml11.dtd\">\n            <html xmlns=\"http://www.w3.org/1999/xhtml\"><head><title>" := by
      decide
    have hpre : xml_decl.isPrefixOf (c.xhtml text a) = true := by
      simp only [Content.xhtml, if_pos h]
      rw [hsplit]
      simp only [List.append_assoc, List.isPrefixOf_iff_prefix]
      exact List.prefix_append _ _
    rw [hpass c' (c.xhtml text a) a' hpre]

/-- C9 amended witness: a body equal to the exact declaration passes
through unchanged. -/
theorem xhtml_passthrough_witness :
    c9_content.xhtml xml_decl false = xml_decl :=
  xhtml_exact_decl_passthrough_idempotent.1 c9_content xml_decl false (by decide)

/-- C10: calling `add_children` (on ContentBuilder or ContentReference) or
`add_content_references` with an empty vector on a node whose list is not
yet set makes the list `Some` of an empty vector, and the NCX depth
calculators (`Content::level`, `Content::level_reference_content`,
`ContentReference::level`, reached through `Epub::level` during `toc.ncx`
generation) then index element 0 of that empty vector and panic (embedded
as `none`) instead of returning an error. -/
theorem empty_vector_add_children_panics :
    (∀ (b : ContentBuilder), b.c.subcontents = none →
        (b.add_children []).build.subcontents = some []
        ∧ ((b.add_children []).build).level = none)
    ∧ (∀ (b : ContentBuilder), b.c.content_references = none →
        (b.add_content_references []).build.content_references = some []
        ∧ ((b.add_content_references []).build).level_reference_content = none)
    ∧ (∀ (r : ContentReference), r.subcontent_references = none →
        (r.add_children []).subcontent_references = some []
        ∧ (r.add_children []).level = none)
    ∧ Epub.level epub_panic = none
    ∧ toc_ncx epub_panic = none := by
  have h4 : Epub.level epub_panic = none := by decide
  refine ⟨?_, ?_, ?_, h4, ?_⟩
  · intro b hb
    obtain ⟨c⟩ := b
    cases c with
    | mk body rt subs refs fname =>
        simp only [Content.subcontents] at hb
        subst hb
        simp [ContentBuilder.add_children, ContentBuilder.build,
          Content.subcontents, Content.content_references, Content.body,
          Content.reference_type, Content.filename_opt, Content.level]
  · intro b hb
    obtain ⟨c⟩ := b
    cases c with
    | mk body rt subs refs fname =>
        simp only [Content.content_references] at hb
        subst hb
        have hbuild :
            ((ContentBuilder.mk (Content.mk body rt subs none fname)).add_content_references
              []).build = Content.mk body rt subs (some []) fname := rfl
        rw [hbuild, Content.level_reference_content.eq_def]
        simp [Content.content_references]
  · intro r hr
    cases r with
    | mk t subs i =>
        simp only [ContentReference.subcontent_references] at hr
        subst hr
        simp [ContentReference.add_children,
          ContentReference.subcontent_references, ContentReference.title,
          ContentReference.id_opt, ContentReference.level]
  · simp [toc_ncx, Epub.level_as_toc_xml, h4]

/-- C10 witness: the empty-vector builder call on a fresh node yields
`Some []` children and a panicking depth computation. -/
theorem empty_vector_add_children_panics_witness :
    empty_children_content.subcontents = some []
    ∧ empty_children_content.level = none :=
  empty_vector_add_children_panics.1
    (ContentBuilder.new [] (.Text (str "T"))) rfl
/-- C2: both packagers write the mimetype file as the first archive entry,
but record on it the *caller-chosen* compression method (the same options
value used for every entry); in particular, with `Deflated` chosen the
mimetype entry is Deflated, not Stored as the EPUB contract (and the
crate's own documentation) requires. -/
theorem mimetype_first_entry_caller_compression :
    (∀ (e : Epub) (c : ZipCompression) (o : Oracles)
        (res : Except Error Unit) (buf sink : List ZipEntry),
        EpubFile.create e c o = some (res, buf, sink) →
          buf.head? =
            some ⟨str "mimetype", str "application/epub+zip", zip_method c⟩)
    ∧ (∀ (e : Epub) (c : ZipCompression) (o : Oracles)
        (res : Except Error Unit) (buf sink : List ZipEntry),
        EpubFileAsync.create e c o = some (res, buf, sink) →
          buf.head? =
            some ⟨str "mimetype", str "application/epub+zip", zip_method c⟩)
    ∧ zip_method ZipCompression.Deflated = CompressionMethod.Deflated
    ∧ CompressionMethod.Deflated ≠ CompressionMethod.Stored := by
  refine ⟨?_, ?_, rfl, by decide⟩ <;>
  · intro e c o res buf sink h
    simp only [EpubFile.create, EpubFileAsync.create] at h
    repeat' split at h
    all_goals
      first
      | (simp only [Option.some.injEq, Prod.mk.injEq] at h
         obtain ⟨h1, h2, h3⟩ := h
         subst h2
         simp [mimetype_file, List.head?, List.cons_append])
      | simp at h

/-- C4: both packagers write bytes to the caller-supplied sink only as the
final step, after every preceding step has succeeded: whenever a run
returns an error, the sink has received nothing, and on success it receives
exactly the finished buffer. -/
theorem no_bytes_written_on_failure :
    (∀ (e : Epub) (c : ZipCompression) (o : Oracles)
        (res : Except Error Unit) (buf sink : List ZipEntry),
        EpubFile.create e c o = some (res, buf, sink) →
          (∀ err, res = .error err → sink = []) ∧ (res = .ok () → sink = buf))
    ∧ (∀ (e : Epub) (c : ZipCompression) (o : Oracles)
        (res : Except Error Unit) (buf sink : List ZipEntry),
        EpubFileAsync.create e c o = some (res, buf, sink) →
          (∀ err, res = .error err → sink = []) ∧ (res = .ok () → sink = buf)) := by
  constructor <;>
  · intro e c o res buf sink h
    simp only [EpubFile.create, EpubFileAsync.create] at h
    repeat' split at h
    all_goals
      first
      | (simp only [Option.some.injEq, Prod.mk.injEq] at h
         obtain ⟨h1, h2, h3⟩ := h
         subst h1
         subst h2
         subst h3
         constructor
         · intro err herr
           first
           | rfl
           | simp at herr
         · intro hok
           first
           | rfl
           | simp at hok)
      | simp at h
/-- C2 witness: for a concrete document packaged with `Deflated`, the first
archive entry is the mimetype file and it carries `Deflated`, not
`Stored`. -/
theorem mimetype_first_entry_witness :
    (EpubFile.create epub_err ZipCompression.Deflated o0).map
      (fun t => t.2.1.head?) =
      some (some ⟨str "mimetype", str "application/epub+zip",
        CompressionMethod.Deflated⟩) := by
  obtain ⟨res, buf, sink, h⟩ :
      ∃ res buf sink, EpubFile.create epub_err ZipCompression.Deflated o0 =
        some (res, buf, sink) := ⟨_, _, _, rfl⟩
  have hm := mimetype_first_entry_caller_compression.1 epub_err
    ZipCompression.Deflated o0 res buf sink h
  rw [h, Option.map_some', hm]
  rfl

/-- C4 witness: a concrete failing run (cover-image read error) writes
nothing to the sink. -/
theorem no_bytes_written_on_failure_witness :
    (EpubFile.create epub_err ZipCompression.Stored o0).map (fun t => t.2.2) =
      some ([] : List ZipEntry) := by
  obtain ⟨buf, sink, h⟩ :
      ∃ buf sink, EpubFile.create epub_err ZipCompression.Stored o0 =
        some (.error Error.Io, buf, sink) := ⟨_, _, rfl⟩
  have hs := (no_bytes_written_on_failure.1 epub_err ZipCompression.Stored o0
    (.error Error.Io) buf sink h).1 Error.Io rfl
  rw [h, Option.map_some', hs]
/-- C5: a Content tree containing any node, at any depth, whose explicit
filename override does not end in `.xhtml` makes OPF generation fail with a
`ContentFilename` error, and therefore neither packager can complete
successfully on such a document. -/
theorem invalid_override_fails_opf :
    ∀ (epub : Epub), has_bad_filename_opt epub.contents = true →
      (∃ s, content_opf epub = .error (.ContentFilename s))
      ∧ (∀ (c : ZipCompression) (o : Oracles) (res : Except Error Unit)
          (buf sink : List ZipEntry),
          EpubFile.create epub c o = some (res, buf, sink) →
            ∃ err, res = .error err)
      ∧ (∀ (c : ZipCompression) (o : Oracles) (res : Except Error Unit)
          (buf sink : List ZipEntry),
          EpubFileAsync.create epub c o = some (res, buf, sink) →
            ∃ err, res = .error err) := by
  intro epub hbad
  have hwalk : ∃ s, opf_walk 0 epub.contents = .error (.ContentFilename s) := by
    cases hw : opf_walk 0 epub.contents with
    | ok p =>
        obtain ⟨hb, -, -⟩ := (opf_walk_sound 0 epub.contents).2 p.1 p.2 (by rw [hw])
        rw [hb] at hbad
        exact absurd hbad (by simp)
    | error e =>
        obtain ⟨s, hs⟩ := (opf_walk_sound 0 epub.contents).1 e hw
        exact ⟨s, by rw [hs]⟩
  obtain ⟨s, hws⟩ := hwalk
  have hopf : content_opf epub = .error (.ContentFilename s) := by
    simp only [content_opf]
    rw [create_content_chain_spec, hws]
    simp [Except.map]
  refine ⟨⟨s, hopf⟩, ?_, ?_⟩ <;>
  · intro c o res buf sink h
    simp only [EpubFile.create, EpubFileAsync.create] at h
    repeat' split at h
    all_goals
      first
      | (simp only [Option.some.injEq, Prod.mk.injEq] at h
         exact ⟨_, h.1.symm⟩)
      | simp_all [hopf]

/-- C5 witness: a `bad.txt` override nested one level deep makes OPF
generation fail. -/
theorem invalid_override_fails_opf_witness :
    has_bad_filename_opt epub_bad_override.contents = true
    ∧ (content_opf epub_bad_override).isOk = false := by
  have hbad : has_bad_filename_opt epub_bad_override.contents = true := by
    simp [epub_bad_override, bad_override_forest, has_bad_filename_opt,
      has_bad_filename_list, Content.new, List.isSuffixOf, List.isPrefixOf]
  refine ⟨hbad, ?_⟩
  obtain ⟨s, hs⟩ := (invalid_override_fails_opf epub_bad_override hbad).1
  rw [hs]
  rfl

set_option maxRecDepth 8000 in
/-- C3 counterexample: on the chain root → child → grandchild the guide
section emits a `<reference>` for the grandchild as well (`c03.xhtml` is
the grandchild's filename), contradicting the claim that only root-level
nodes and their direct children appear in the guide. -/
theorem guide_contains_grandchild_reference :
    create_content_chain 0 (str "") (some deep_forest) guide_reference_xml =
      .ok (str "<reference type=\"text\" title=\"A\" href=\"c01.xhtml\"/><reference type=\"text\" title=\"B\" href=\"c02.xhtml\"/><reference type=\"text\" title=\"C\" href=\"c03.xhtml\"/>", 3)
    ∧ (str "href=\"c03.xhtml\"") <:+:
        (str "<reference type=\"text\" title=\"A\" href=\"c01.xhtml\"/><reference type=\"text\" title=\"B\" href=\"c02.xhtml\"/><reference type=\"text\" title=\"C\" href=\"c03.xhtml\"/>") := by
  constructor
  · simp [create_content_chain, create_content_chain_list, deep_forest,
      Content.new, Content.filename, Content.filename_opt,
      Content.reference_type, guide_reference_xml, ReferenceType.type_and_title,
      fmt02, natStr, List.isSuffixOf, List.isPrefixOf]
    all_goals decide
  · decide

/-- C3 amended: the guide walk emits exactly one `<reference>` per Content
node at *every* depth — the same full pre-order numbering walk as the
manifest and spine — not just for root nodes and their direct children. -/
theorem guide_lists_every_depth :
    ∀ (contents : Option (List Content)) (cb s : Str) (n' : Nat),
      create_content_chain 0 cb contents guide_reference_xml = .ok (s, n') →
        ∃ ps, opf_walk 0 contents = .ok (ps, n')
          ∧ s = cb ++ render_chain guide_reference_xml ps
          ∧ ps.length = contents_size_opt contents
          ∧ n' = contents_size_opt contents := by
  intro contents cb s n' h
  rw [create_content_chain_spec] at h
  cases hw : opf_walk 0 contents with
  | error e =>
      rw [hw] at h
      simp [Except.map] at h
  | ok p =>
      rw [hw] at h
      simp only [Except.map, Except.ok.injEq, Prod.mk.injEq] at h
      obtain ⟨hs, hn⟩ := h
      obtain ⟨-, hlen, hcount⟩ := (opf_walk_sound 0 contents).2 p.1 p.2 (by rw [hw])
      refine ⟨p.1, by rw [← hn], hs.symm, hlen, by omega⟩

set_option maxRecDepth 8000 in
/-- C3 amended witness: on the three-level chain the guide lists all three
nodes. -/
theorem guide_lists_every_depth_witness :
    ∃ ps, opf_walk 0 (some deep_forest) = .ok (ps, 3)
      ∧ str "<reference type=\"text\" title=\"A\" href=\"c01.xhtml\"/><reference type=\"text\" title=\"B\" href=\"c02.xhtml\"/><reference type=\"text\" title=\"C\" href=\"c03.xhtml\"/>"
          = str "" ++ render_chain guide_reference_xml ps
      ∧ ps.length = contents_size_opt (some deep_forest)
      ∧ 3 = contents_size_opt (some deep_forest) :=
  guide_lists_every_depth (some deep_forest) (str "")
    (str "<reference type=\"text\" title=\"A\" href=\"c01.xhtml\"/><reference type=\"text\" title=\"B\" href=\"c02.xhtml\"/><reference type=\"text\" title=\"C\" href=\"c03.xhtml\"/>")
    3 (by
      simp [create_content_chain, create_content_chain_list, deep_forest,
        Content.new, Content.filename, Content.filename_opt,
        Content.reference_type, guide_reference_xml,
        ReferenceType.type_and_title, fmt02, natStr, List.isSuffixOf,
        List.isPrefixOf]
      all_goals decide)

/-- C1: the OPF manifest walk numbers Content nodes with a per-node file
counter, but the NCX walk derives filenames from the *play-order* counter,
which ContentReference navPoints also advance; on `ref_forest` the second
content node is `c02.xhtml` in the manifest yet its NCX navPoint points at
`c03.xhtml`, so the traversals do not assign the same filename to the same
node. -/
theorem ncx_filename_diverges_from_manifest :
    create_content_chain 0 (str "") (some ref_forest) manifest_item_xml =
      .ok (str "<item id=\"c01.xhtml\" href=\"c01.xhtml\" media-type=\"application/xhtml+xml\"/><item id=\"c02.xhtml\" href=\"c02.xhtml\" media-type=\"application/xhtml+xml\"/>", 2)
    ∧ (contents_to_nav_point 0 ref_forest).2.1.map (·.src) =
        [str "c01.xhtml", str "c01.xhtml#id01", str "c03.xhtml"]
    ∧ (str "c03.xhtml" : Str) ≠ str "c02.xhtml" := by
  refine ⟨?_, ?_, by decide⟩
  · simp [create_content_chain, create_content_chain_list, ref_forest,
      Content.new, Content.filename, Content.filename_opt,
      Content.reference_type, manifest_item_xml, fmt02, natStr,
      List.isSuffixOf, List.isPrefixOf]
    all_goals decide
  · simp [contents_to_nav_point, content_refs_part, subcontents_part,
      content_references_to_nav_point, nav_reference_loop, ref_forest,
      Content.new, Content.filename, Content.filename_opt, Content.title,
      Content.reference_type, ReferenceType.type_and_title,
      ContentReference.new, ContentReference.reference_name,
      ContentReference.id_opt, ContentReference.title,
      ContentReference.subcontent_references, rsplit_once, parse_usize,
      fmt02, natStr]
    all_goals decide
